import Mathlib

/-!
Shallow embedding of the result-rendering pipeline of `src/Frontend/script.js`
(the `analyzeImage` function and its helpers).  JavaScript numbers are modelled
as exact rationals; the special values NaN and ±Infinity that JavaScript
division can produce are represented by explicit constructors of `JSNum`.
DOM state touched by the renderer is modelled as an explicit `PageState`
record, and one call of `analyzeImage` as a state-transformation function
over an abstract request `Outcome`.
-/

namespace SpineScan

/-- A JavaScript number: either an ordinary (exact rational) value, NaN, or an
infinity.  In this program the only non-finite value that can actually arise is
NaN, from the `0/0` of an empty `discs` average. -/
inductive JSNum where
  | nan : JSNum
  | inf : JSNum
  | negInf : JSNum
  | num : ℚ → JSNum
deriving DecidableEq

/-- JavaScript division.  `0/0` is NaN, `a/0` with `a ≠ 0` is a signed
infinity, otherwise exact rational division.  Division where either operand is
already non-finite does not occur in this program and is collapsed to NaN. -/
def jsDiv : JSNum → JSNum → JSNum
  | .num a, .num b =>
      if b = 0 then (if a = 0 then .nan else if 0 < a then .inf else .negInf)
      else .num (a / b)
  | _, _ => .nan

/-- JavaScript multiplication, restricted to the finite cases this program can
reach (a NaN operand propagates; infinite operands do not occur here). -/
def jsMul : JSNum → JSNum → JSNum
  | .num a, .num b => .num (a * b)
  | _, _ => .nan

/-- The integer of tenths selected by `toFixed(1)`: the integer `n` minimising
`|n / 10 - x|`, ties resolved to the larger `n` (ECMA-262 Number.prototype.toFixed). -/
def round1 (q : ℚ) : ℤ := ⌊q * 10 + 1 / 2⌋

/-- Print an integer number of tenths as a decimal string with one digit after
the point, e.g. `700 ↦ "70.0"`. -/
def formatTenths (n : ℤ) : String :=
  (if n < 0 then "-" else "") ++ toString (n.natAbs / 10) ++ "." ++ toString (n.natAbs % 10)

/-- `x.toFixed(1)` on a `JSNum`. -/
def toFixed1 : JSNum → String
  | .nan => "NaN"
  | .inf => "Infinity"
  | .negInf => "-Infinity"
  | .num q => formatTenths (round1 q)

/-- One entry of `data.report.discs`. -/
structure DiscFinding where
  condition : String
  severity : String
  confidence : ℚ
deriving DecidableEq

/-- `discs.reduce((acc, obj) => acc + obj.confidence, 0)` (script.js line 142). -/
def sumConfidence (discs : List DiscFinding) : ℚ :=
  discs.foldl (fun acc obj => acc + obj.confidence) 0

/-- `const overall_confidence = sum / discs.length` (script.js line 143). -/
def overall_confidence (discs : List DiscFinding) : JSNum :=
  jsDiv (.num (sumConfidence discs)) (.num (discs.length : ℚ))

/-- `const confidencePercent = (overall_confidence * 100).toFixed(1)`
(script.js line 145). -/
def confidencePercent (discs : List DiscFinding) : String :=
  toFixed1 (jsMul (overall_confidence discs) (.num 100))

/-- The text written to the `confidence-text` element: `confidencePercent + "%"`
(script.js line 146). -/
def confidenceTextOf (discs : List DiscFinding) : String :=
  confidencePercent discs ++ "%"

/-- The spec's formula for the displayed confidence, written from the spec's
words: `round(100 × mean(confidences), 1)`, printed to one decimal place. -/
def specConfidencePercent (discs : List DiscFinding) : String :=
  formatTenths (round1 (100 * ((discs.map DiscFinding.confidence).sum / (discs.length : ℚ))))

theorem sumConfidence_eq_sum (discs : List DiscFinding) :
    sumConfidence discs = (discs.map DiscFinding.confidence).sum := by
  have h : ∀ l : List DiscFinding, ∀ a : ℚ,
      l.foldl (fun acc obj => acc + obj.confidence) a = a + (l.map DiscFinding.confidence).sum := by
    intro l
    induction l with
    | nil => intro a; simp
    | cons x xs ih =>
        intro a
        simp [List.foldl_cons, ih, add_assoc]
  simpa using h discs 0

/-- One `<circle>` appended to the `progressChart` SVG: its stroke colour key,
the first component of its `stroke-dasharray`, and its `stroke-dashoffset`
(script.js lines 241-255). -/
structure Segment where
  label : String
  percentage : ℚ
  offset : ℚ
deriving DecidableEq

/-- `Object.values(counts).reduce((sum, val) => sum + val, 0)`
(script.js line 229).  Counts are non-negative integers, so the JS number total
is modelled as a natural number. -/
def countsTotal (counts : List (String × ℕ)) : ℕ :=
  counts.foldl (fun acc kv => acc + kv.2) 0

/-- The `Object.entries(counts).forEach` loop of script.js lines 233-256,
carrying the running `cumulative` offset.  Entries with `value === 0` are
skipped; each emitted circle gets `stroke-dasharray` first component
`(value / total) * 100` and `stroke-dashoffset` the string `-cumulative`,
i.e. the negation of the running sum of the prior percentages. -/
def donutLoop (total : ℚ) : List (String × ℕ) → ℚ → List Segment
  | [], _ => []
  | kv :: rest, cumulative =>
    if kv.2 = 0 then donutLoop total rest cumulative
    else
      ((⟨kv.1, ((kv.2 : ℚ) / total) * 100, -cumulative⟩ : Segment) ::
        donutLoop total rest (cumulative + ((kv.2 : ℚ) / total) * 100))

/-- All circles appended to the SVG by one render, in entry order. -/
def donutSegments (counts : List (String × ℕ)) : List Segment :=
  donutLoop (countsTotal counts : ℚ) counts 0

/-- The state of the condition dot, risk badge and the three note blocks after
the per-condition styling of script.js lines 160-195.  A note is visible when
its `hidden` css token is absent. -/
structure StatusView where
  dotStyle : String
  badgeText : String
  badgeStyle : String
  herniationNoteVisible : Bool
  bulgingNoteVisible : Bool
  normalNoteVisible : Bool
deriving DecidableEq

/-- JavaScript `risk_level || dflt`: an absent (`undefined`) or empty string is
falsy and selects the default. -/
def jsOrString : Option String → String → String
  | none, dflt => dflt
  | some s, dflt => if s = "" then dflt else s

/-- The decision-table default badge text per `overallStatus` (§4.1 of the
spec; identical to the literals in script.js lines 182, 187, 192). -/
def defaultBadgeText (condition : String) : String :=
  if condition = "Critical" then "High Risk"
  else if condition = "Attention Required" then "Low Risk"
  else "Normal"

/-- script.js lines 164-195: reset the dot, hide the three notes, then apply
the per-condition branch. -/
def renderStatus (condition : String) (risk_level : Option String) : StatusView :=
  if condition = "Critical" then
    { dotStyle := "w-4 h-4 rounded-full bg-red-500"
      badgeText := jsOrString risk_level "High Risk"
      badgeStyle := "px-3 py-1 rounded-full text-xs font-medium bg-red-100 text-red-700"
      herniationNoteVisible := true
      bulgingNoteVisible := false
      normalNoteVisible := false }
  else if condition = "Attention Required" then
    { dotStyle := "w-4 h-4 rounded-full bg-amber-500"
      badgeText := jsOrString risk_level "Low Risk"
      badgeStyle := "px-3 py-1 rounded-full text-xs font-medium bg-amber-100 text-amber-700"
      herniationNoteVisible := false
      bulgingNoteVisible := true
      normalNoteVisible := false }
  else
    { dotStyle := "w-4 h-4 rounded-full bg-emerald-500"
      badgeText := jsOrString risk_level "Normal"
      badgeStyle := "px-3 py-1 rounded-full text-xs font-medium bg-emerald-100 text-emerald-700"
      herniationNoteVisible := false
      bulgingNoteVisible := false
      normalNoteVisible := true }

/-- How many of the three notes are visible. -/
def noteCount (v : StatusView) : ℕ :=
  (if v.herniationNoteVisible then 1 else 0) +
    (if v.bulgingNoteVisible then 1 else 0) +
    (if v.normalNoteVisible then 1 else 0)

/-- The `className` chosen for a per-disc span from `discs[index].severity`
(script.js lines 204-215). -/
def severityStyle (severity : String) : String :=
  if severity = "severe" then "font-bold text-red-500 text-lg"
  else if severity = "moderate" then "font-bold text-amber-500 text-lg"
  else if severity = "low" then "font-bold text-emerald-500 text-lg"
  else "font-bold text-blue-500 text-lg"

/-- One of the `span[id$="-class"]` elements: its `textContent` and
`className`. -/
structure SlotView where
  text : String
  style : String
deriving DecidableEq

/-- `resultSpans.forEach((span, index) => ...)` of script.js lines 201-216.
When `index` runs past `discs.length`, `discs[index]` is `undefined` in JS and
the immediate `.condition` access throws a TypeError, aborting the `forEach`;
the span at that index and all later spans keep their previous content.  The
second component records whether such a TypeError was thrown. -/
def renderSpans (discs : List DiscFinding) : ℕ → List SlotView → List SlotView × Bool
  | _, [] => ([], false)
  | index, span :: rest =>
    match discs[index]? with
    | none => (span :: rest, true)
    | some d =>
      let out := renderSpans discs (index + 1) rest
      (({ text := d.condition, style := severityStyle d.severity } : SlotView) :: out.1, out.2)

/-- `data.report`. -/
structure Report where
  discs : List DiscFinding
  summary : List (String × ℕ)
  overall_status : String
deriving DecidableEq

/-- A successful response body of `POST /predict/full/`. -/
structure AnalysisData where
  annotated_image : String
  report : Report
  risk_level : Option String
deriving DecidableEq

/-- The outcome of the fetch: the fetch promise rejects (network failure),
the response arrives with `!response.ok` (carrying an optional `detail` field
in its JSON body), or a success body parses. -/
inductive Outcome where
  | networkError (message : String) : Outcome
  | httpError (status : ℕ) (detail : Option String) : Outcome
  | success (data : AnalysisData) : Outcome
deriving DecidableEq

/-- `counts.K ?? 0` (script.js lines 153-156). -/
def summaryCount (summary : List (String × ℕ)) (key : String) : ℕ :=
  (summary.lookup key).getD 0

/-- The page state touched by `analyzeImage`: the busy indicators, the result
display fields, the per-disc spans, the children of the `progressChart` SVG,
and the list of alert messages shown so far. -/
structure PageState where
  page : String
  progressVisible : Bool
  actionButtonsVisible : Bool
  resultImageSrc : String
  resultImageVisible : Bool
  placeholderVisible : Bool
  confidenceText : String
  confidenceBarWidth : String
  normalCount : ℕ
  bulgingCount : ℕ
  herniationCount : ℕ
  notDetectedCount : ℕ
  conditionText : String
  status : StatusView
  spans : List SlotView
  svgChildren : List Segment
  alerts : List String
deriving DecidableEq

/-- The body of the `try` block after a successful response (script.js lines
124-256): navigate to the results page, fill the display fields, restyle the
spans, and append the donut circles.  Returns the new state and, when the
per-disc span loop threw a TypeError, the error message; in that case
everything after the span loop (the donut chart) is skipped. -/
def renderSuccess (s : PageState) (data : AnalysisData) : PageState × Option String :=
  let discs := data.report.discs
  let counts := data.report.summary
  let condition := data.report.overall_status
  let spansOut := renderSpans discs 0 s.spans
  let s1 : PageState :=
    { s with
      page := "results"
      resultImageSrc := data.annotated_image
      resultImageVisible := true
      placeholderVisible := false
      confidenceText := confidencePercent discs ++ "%"
      confidenceBarWidth := confidencePercent discs ++ "%"
      normalCount := summaryCount counts "Normal"
      bulgingCount := summaryCount counts "Bulging"
      herniationCount := summaryCount counts "Herniation"
      notDetectedCount := summaryCount counts "Not_Detected"
      conditionText := condition
      status := renderStatus condition data.risk_level
      spans := spansOut.1 }
  if spansOut.2 then
    (s1, some "Cannot read properties of undefined (reading 'condition')")
  else
    ({ s1 with svgChildren := s1.svgChildren ++ donutSegments counts }, none)

/-- One call of `analyzeImage` (script.js lines 89-267).  `fileSelected` is
whether `fileInput.files[0]` is non-empty; `outcome` abstracts the fetch.
The busy state (progress section shown, action buttons hidden) is set before
the `try`, every thrown error is caught and alerted as
`"Detection failed: " + error.message`, and the `finally` block restores the
busy state on every path. -/
def analyzeImage (s : PageState) (fileSelected : Bool) (outcome : Outcome) : PageState :=
  if !fileSelected then
    { s with alerts := s.alerts ++ ["Please upload an image first."] }
  else
    let busy : PageState := { s with progressVisible := true, actionButtonsVisible := false }
    let afterTry : PageState :=
      match outcome with
      | .networkError message =>
          { busy with alerts := busy.alerts ++ ["Detection failed: " ++ message] }
      | .httpError status detail =>
          { busy with alerts := busy.alerts ++
              ["Detection failed: " ++ jsOrString detail ("Server error " ++ toString status)] }
      | .success data =>
          match (renderSuccess busy data).2 with
          | some message =>
              { (renderSuccess busy data).1 with
                  alerts := (renderSuccess busy data).1.alerts ++ ["Detection failed: " ++ message] }
          | none => (renderSuccess busy data).1
    { afterTry with progressVisible := false, actionButtonsVisible := true }

theorem round1_concrete (q : ℚ) (n : ℤ) (h1 : (n : ℚ) ≤ q * 10 + 1 / 2)
    (h2 : q * 10 + 1 / 2 < n + 1) : round1 q = n :=
  Int.floor_eq_iff.mpr ⟨h1, h2⟩

/-- C1: for every report with non-empty `discs`, the displayed confidence
percentage is the arithmetic mean of the disc confidences, times 100, rounded
to one decimal place; in particular two discs with confidences 0.8 and 0.6
render as "70.0". -/
theorem C1_confidence_is_rounded_mean (discs : List DiscFinding) (h : discs ≠ []) :
    confidencePercent discs = specConfidencePercent discs ∧
    confidencePercent
      [⟨"Bulging", "moderate", 8/10⟩, ⟨"Normal", "low", 6/10⟩] = "70.0" := by
  constructor
  · have hlen : (discs.length : ℚ) ≠ 0 :=
      Nat.cast_ne_zero.mpr (List.length_pos.mpr h).ne'
    simp only [confidencePercent, specConfidencePercent, overall_confidence, jsDiv, jsMul,
      toFixed1, if_neg hlen]
    rw [sumConfidence_eq_sum, mul_comm]
  · have hsum : sumConfidence [⟨"Bulging", "moderate", 8/10⟩, ⟨"Normal", "low", 6/10⟩]
        = 7/5 := by
      simp [sumConfidence]
      norm_num
    have h2 : ((2 : ℕ) : ℚ) ≠ 0 := by norm_num
    simp only [confidencePercent, overall_confidence, hsum, List.length_cons,
      List.length_nil, jsDiv, jsMul, toFixed1, if_neg h2]
    have hr : round1 (7 / 5 / ((2 : ℕ) : ℚ) * 100) = 700 := by
      apply round1_concrete <;> norm_num
    rw [hr]
    rfl

theorem C1_witness :
    ([(⟨"Bulging", "moderate", 8/10⟩ : DiscFinding), ⟨"Normal", "low", 6/10⟩] ≠
        ([] : List DiscFinding)) ∧
    confidencePercent
        [(⟨"Bulging", "moderate", 8/10⟩ : DiscFinding), ⟨"Normal", "low", 6/10⟩]
      = specConfidencePercent
        [(⟨"Bulging", "moderate", 8/10⟩ : DiscFinding), ⟨"Normal", "low", 6/10⟩] :=
  ⟨by simp,
   (C1_confidence_is_rounded_mean
      [⟨"Bulging", "moderate", 8/10⟩, ⟨"Normal", "low", 6/10⟩] (by simp)).1⟩

/-- C7: for an empty `discs` sequence the confidence computation produces NaN
(the 0/0 mean) instead of throwing, and the rendered confidence text is the
NaN value formatted by `toFixed(1)`, i.e. "NaN" with the "%" suffix. -/
theorem C7_empty_discs_yield_nan :
    overall_confidence [] = JSNum.nan ∧
    confidencePercent [] = "NaN" ∧
    confidenceTextOf [] = "NaN%" := by
  refine ⟨?_, ?_, ?_⟩ <;>
    simp [overall_confidence, confidencePercent, confidenceTextOf, sumConfidence,
      jsDiv, jsMul, toFixed1]

theorem countsTotal_eq_sum (counts : List (String × ℕ)) :
    countsTotal counts = (counts.map fun kv => kv.2).sum := by
  have h : ∀ (l : List (String × ℕ)) (a : ℕ),
      l.foldl (fun acc kv => acc + kv.2) a = a + (l.map fun kv => kv.2).sum := by
    intro l
    induction l with
    | nil => intro a; simp
    | cons kv rest ih => intro a; simp [List.foldl_cons, ih, add_assoc]
  simpa using h counts 0

theorem donutLoop_percentage_sum (t : ℚ) (l : List (String × ℕ)) (cum : ℚ) :
    ((donutLoop t l cum).map Segment.percentage).sum
      = (l.map fun kv => ((kv.2 : ℚ) / t) * 100).sum := by
  induction l generalizing cum with
  | nil => simp [donutLoop]
  | cons kv rest ih =>
      by_cases hz : kv.2 = 0
      · simp [donutLoop, hz, ih]
      · simp [donutLoop, hz, ih]

theorem donutLoop_entries (t : ℚ) (l : List (String × ℕ)) (cum : ℚ) :
    ((donutLoop t l cum).map fun s => (s.label, s.percentage))
      = ((l.filter fun kv => kv.2 ≠ 0).map fun kv => (kv.1, 100 * (kv.2 : ℚ) / t)) := by
  induction l generalizing cum with
  | nil => simp [donutLoop]
  | cons kv rest ih =>
      by_cases hz : kv.2 = 0
      · simp [donutLoop, hz, ih]
      · simp [donutLoop, hz, ih]
        ring

theorem donutLoop_head_offset (t : ℚ) (l : List (String × ℕ)) (cum : ℚ) :
    ∀ s ∈ (donutLoop t l cum).head?, s.offset = -cum := by
  induction l generalizing cum with
  | nil => intro s hs; simp [donutLoop] at hs
  | cons kv rest ih =>
      intro s hs
      by_cases hz : kv.2 = 0
      · exact ih cum s (by simpa [donutLoop, hz] using hs)
      · simp [donutLoop, hz] at hs
        rw [← hs]

theorem donutLoop_offset_chain (t : ℚ) (ht : 0 < t) (l : List (String × ℕ)) (cum : ℚ) :
    List.Chain' (fun a b => b.offset = a.offset - a.percentage ∧ b.offset < a.offset)
      (donutLoop t l cum) := by
  induction l generalizing cum with
  | nil => simp [donutLoop]
  | cons kv rest ih =>
      by_cases hz : kv.2 = 0
      · simpa [donutLoop, hz] using ih cum
      · rw [donutLoop, if_neg hz, List.chain'_cons']
        refine ⟨?_, ih _⟩
        intro b hb
        have hoff := donutLoop_head_offset t rest _ b hb
        have hp : 0 < ((kv.2 : ℚ) / t) * 100 := by
          have hv : (0 : ℚ) < (kv.2 : ℚ) := by
            exact_mod_cast Nat.pos_of_ne_zero hz
          positivity
        constructor
        · rw [hoff]; ring
        · rw [hoff]
          simp only []
          linarith

/-- The `summary` of the spec's donut scenario: `{Normal:3, Bulging:1, Herniation:0}`. -/
def exCounts : List (String × ℕ) := [("Normal", 3), ("Bulging", 1), ("Herniation", 0)]

theorem donutSegments_exCounts :
    donutSegments exCounts = [⟨"Normal", 75, 0⟩, ⟨"Bulging", 25, -75⟩] := by
  simp only [donutSegments, exCounts, countsTotal, List.foldl_cons, List.foldl_nil,
    donutLoop]
  norm_num

/-- C2 counterexample: for `summary = {Normal:3, Bulging:1, Herniation:0}` the
emitted offsets are `0` and `-75`: they are strictly decreasing, not strictly
increasing, and the second offset is the negation of the running sum of the
prior percentages, not the running sum itself. -/
theorem C2_counterexample :
    donutSegments exCounts = [⟨"Normal", 75, 0⟩, ⟨"Bulging", 25, -75⟩] ∧
    ¬ List.Chain' (fun a b => a.offset < b.offset) (donutSegments exCounts) ∧
    ¬ List.Chain' (fun a b => b.offset = a.offset + a.percentage) (donutSegments exCounts) := by
  refine ⟨donutSegments_exCounts, ?_, ?_⟩ <;>
    rw [donutSegments_exCounts] <;>
    simp only [List.chain'_cons, List.chain'_singleton, and_true] <;>
    norm_num

/-- C2 amended: for every `countsByLabel` whose total is positive, a donut
segment is emitted exactly for each label with count > 0, each segment's
percentage equals 100 × count / total, the emitted percentages sum to exactly
100, the first segment's offset is 0 and each later segment's offset is the
NEGATION of the running sum of the prior segments' percentages — so offsets
are strictly DECREASING and consecutive segments are laid out back-to-back
without overlap; in particular `{Normal:3, Bulging:1, Herniation:0}` yields
exactly two segments with percentages 75 and 25 and second-segment offset
-75. -/
theorem C2_donut_segments (counts : List (String × ℕ)) (h : 0 < countsTotal counts) :
    ((donutSegments counts).map Segment.percentage).sum = 100 ∧
    ((donutSegments counts).map fun s => (s.label, s.percentage))
      = ((counts.filter fun kv => kv.2 ≠ 0).map fun kv =>
          (kv.1, 100 * (kv.2 : ℚ) / (countsTotal counts : ℚ))) ∧
    (∀ s ∈ (donutSegments counts).head?, s.offset = 0) ∧
    List.Chain' (fun a b => b.offset = a.offset - a.percentage ∧ b.offset < a.offset)
      (donutSegments counts) ∧
    donutSegments exCounts = [⟨"Normal", 75, 0⟩, ⟨"Bulging", 25, -75⟩] := by
  have ht : (0 : ℚ) < (countsTotal counts : ℚ) := by exact_mod_cast h
  refine ⟨?_, donutLoop_entries _ _ _, ?_, donutLoop_offset_chain _ ht _ _,
    donutSegments_exCounts⟩
  · rw [donutSegments, donutLoop_percentage_sum]
    have hsum : ∀ l : List (String × ℕ),
        (l.map fun kv => ((kv.2 : ℚ) / (countsTotal counts : ℚ)) * 100).sum
          = ((l.map fun kv => (kv.2 : ℚ)).sum / (countsTotal counts : ℚ)) * 100 := by
      intro l
      induction l with
      | nil => simp
      | cons kv rest ih => simp [ih]; ring
    rw [hsum]
    have hcast : ((counts.map fun kv => (kv.2 : ℚ)).sum) = (countsTotal counts : ℚ) := by
      rw [countsTotal_eq_sum]
      rw [Nat.cast_list_sum, List.map_map]
      rfl
    rw [hcast, div_self ht.ne']
    norm_num
  · intro s hs
    have := donutLoop_head_offset (countsTotal counts : ℚ) counts 0 s hs
    simpa using this

theorem C2_witness :
    0 < countsTotal exCounts ∧
    ((donutSegments exCounts).map Segment.percentage).sum = 100 ∧
    List.Chain' (fun a b => b.offset = a.offset - a.percentage ∧ b.offset < a.offset)
      (donutSegments exCounts) :=
  ⟨by decide,
   (C2_donut_segments exCounts (by decide)).1,
   (C2_donut_segments exCounts (by decide)).2.2.2.1⟩

/-- C3: the status decision table: `"Critical"` gives the red dot and only the
herniation note, `"Attention Required"` the amber dot and only the bulging
note, anything else the green dot and only the normal note; in every case
exactly one of the three notes is visible after rendering. -/
theorem C3_status_decision_table (condition : String) (risk : Option String) :
    (condition = "Critical" →
      (renderStatus condition risk).dotStyle = "w-4 h-4 rounded-full bg-red-500" ∧
      (renderStatus condition risk).herniationNoteVisible = true ∧
      (renderStatus condition risk).bulgingNoteVisible = false ∧
      (renderStatus condition risk).normalNoteVisible = false) ∧
    (condition = "Attention Required" →
      (renderStatus condition risk).dotStyle = "w-4 h-4 rounded-full bg-amber-500" ∧
      (renderStatus condition risk).herniationNoteVisible = false ∧
      (renderStatus condition risk).bulgingNoteVisible = true ∧
      (renderStatus condition risk).normalNoteVisible = false) ∧
    (condition ≠ "Critical" → condition ≠ "Attention Required" →
      (renderStatus condition risk).dotStyle = "w-4 h-4 rounded-full bg-emerald-500" ∧
      (renderStatus condition risk).herniationNoteVisible = false ∧
      (renderStatus condition risk).bulgingNoteVisible = false ∧
      (renderStatus condition risk).normalNoteVisible = true) ∧
    noteCount (renderStatus condition risk) = 1 := by
  unfold renderStatus noteCount
  by_cases h1 : condition = "Critical"
  · subst h1
    refine ⟨fun _ => by simp, fun h => absurd h (by decide), fun h _ => absurd rfl h, by simp⟩
  · by_cases h2 : condition = "Attention Required"
    · subst h2
      refine ⟨fun h => absurd h (by decide), fun _ => by simp [h1], fun _ h => absurd rfl h,
        by simp [h1]⟩
    · exact ⟨fun h => absurd h h1, fun h => absurd h h2, fun _ _ => by simp [h1, h2],
        by simp [h1, h2]⟩

theorem C3_witness :
    (renderStatus "Attention Required" none).dotStyle = "w-4 h-4 rounded-full bg-amber-500" ∧
    (renderStatus "Attention Required" none).herniationNoteVisible = false ∧
    (renderStatus "Attention Required" none).bulgingNoteVisible = true ∧
    (renderStatus "Attention Required" none).normalNoteVisible = false ∧
    noteCount (renderStatus "Attention Required" none) = 1 := by
  have h := C3_status_decision_table "Attention Required" none
  exact ⟨(h.2.1 rfl).1, (h.2.1 rfl).2.1, (h.2.1 rfl).2.2.1, (h.2.1 rfl).2.2.2, h.2.2.2⟩

/-- C4: with `riskLevel` absent the badge text is the decision-table default
for the given `overallStatus`; with `riskLevel` present and non-empty the badge
text is `riskLevel` verbatim; and the badge style depends only on
`overallStatus`, never on `riskLevel`. -/
theorem C4_risk_badge (condition : String) (s : String) (r1 r2 : Option String)
    (hs : s ≠ "") :
    (renderStatus condition none).badgeText = defaultBadgeText condition ∧
    (renderStatus condition (some s)).badgeText = s ∧
    (renderStatus condition r1).badgeStyle = (renderStatus condition r2).badgeStyle := by
  unfold renderStatus defaultBadgeText jsOrString
  by_cases h1 : condition = "Critical"
  · simp [h1, hs]
  · by_cases h2 : condition = "Attention Required" <;> simp [h1, h2, hs]

theorem C4_witness :
    ("High" : String) ≠ "" ∧
    (renderStatus "Attention Required" none).badgeText = defaultBadgeText "Attention Required" ∧
    (renderStatus "Attention Required" (some "High")).badgeText = "High" ∧
    (renderStatus "Attention Required" none).badgeStyle
      = (renderStatus "Attention Required" (some "zz")).badgeStyle :=
  have h := C4_risk_badge "Attention Required" "High" none (some "zz") (by decide)
  ⟨by decide, h.1, h.2.1, h.2.2⟩

theorem renderSpans_length (discs : List DiscFinding) (slots : List SlotView) (i : ℕ) :
    (renderSpans discs i slots).1.length = slots.length := by
  induction slots generalizing i with
  | nil => rfl
  | cons span rest ih =>
      cases h : discs[i]? with
      | none => simp [renderSpans, h]
      | some d => simp [renderSpans, h, ih]

theorem renderSpans_no_error (discs : List DiscFinding) (slots : List SlotView) (i : ℕ)
    (h : i + slots.length ≤ discs.length) : (renderSpans discs i slots).2 = false := by
  induction slots generalizing i with
  | nil => rfl
  | cons span rest ih =>
      have hi : i < discs.length := by
        simp only [List.length_cons] at h
        omega
      have hd := List.getElem?_eq_getElem hi
      simp only [renderSpans, hd]
      exact ih (i + 1) (by simp only [List.length_cons] at h; omega)

theorem renderSpans_error (discs : List DiscFinding) (slots : List SlotView) (i : ℕ)
    (hne : slots ≠ []) (h : discs.length < i + slots.length) :
    (renderSpans discs i slots).2 = true := by
  induction slots generalizing i with
  | nil => exact absurd rfl hne
  | cons span rest ih =>
      by_cases hi : i < discs.length
      · have hd := List.getElem?_eq_getElem hi
        have hrest : rest ≠ [] := by
          intro he
          subst he
          simp only [List.length_cons, List.length_nil] at h
          omega
        simp only [renderSpans, hd]
        exact ih (i + 1) hrest (by simp only [List.length_cons] at h; omega)
      · have hd : discs[i]? = none := List.getElem?_eq_none (by omega)
        simp [renderSpans, hd]

theorem renderSpans_stale (discs : List DiscFinding) (slots : List SlotView) (i j : ℕ)
    (h : discs.length ≤ i + j) :
    (renderSpans discs i slots).1[j]? = slots[j]? := by
  induction slots generalizing i j with
  | nil => rfl
  | cons span rest ih =>
      by_cases hi : i < discs.length
      · have hd := List.getElem?_eq_getElem hi
        cases j with
        | zero => omega
        | succ j' =>
            simp only [renderSpans, hd, List.getElem?_cons_succ]
            exact ih (i + 1) j' (by omega)
      · have hd : discs[i]? = none := List.getElem?_eq_none (by omega)
        simp [renderSpans, hd]

theorem renderSpans_updated (discs : List DiscFinding) (slots : List SlotView) (i j : ℕ)
    (hj : j < slots.length) (hd : i + j < discs.length) :
    (renderSpans discs i slots).1[j]?
      = (discs[i + j]?).map
          (fun d => ({ text := d.condition, style := severityStyle d.severity } : SlotView)) := by
  induction slots generalizing i j with
  | nil => simp at hj
  | cons span rest ih =>
      have hi : i < discs.length := by omega
      have hsome := List.getElem?_eq_getElem hi
      cases j with
      | zero =>
          simp [renderSpans, hsome]
      | succ j' =>
          simp only [renderSpans, hsome, List.getElem?_cons_succ]
          rw [show i + (j' + 1) = (i + 1) + j' by omega]
          exact ih (i + 1) j' (by simpa using hj) (by omega)

/-- A sample disc finding used by concrete scenarios. -/
def exDisc : DiscFinding := ⟨"Normal", "low", 1/2⟩

/-- Three display slots holding content left over from a previous render. -/
def staleSlots : List SlotView := [⟨"L1", "c1"⟩, ⟨"L2", "c2"⟩, ⟨"L3", "c3"⟩]

/-- C5 counterexample: one disc finding but three display slots — the span
loop throws a TypeError at the second slot (the operation does NOT complete
without error); the first slot is updated and the trailing two keep their
stale content. -/
theorem C5_counterexample :
    (renderSpans [exDisc] 0 staleSlots).2 = true ∧
    (renderSpans [exDisc] 0 staleSlots).1
      = [⟨"Normal", "font-bold text-emerald-500 text-lg"⟩, ⟨"L2", "c2"⟩, ⟨"L3", "c3"⟩] := by
  constructor <;> decide

/-- C5 amended: when `discs` has at least as many entries as there are display
slots the excess findings are silently dropped without error; when it has
fewer, the first out-of-range slot access throws a TypeError (caught by the
surrounding handler) so the operation does NOT complete without error, and the
trailing slots (from index `discs.length` on) keep their previous stale
content unchanged. -/
theorem C5_slot_mismatch (discs : List DiscFinding) (slots : List SlotView) (j : ℕ) :
    (slots.length ≤ discs.length → (renderSpans discs 0 slots).2 = false) ∧
    (discs.length < slots.length → (renderSpans discs 0 slots).2 = true) ∧
    (discs.length ≤ j → (renderSpans discs 0 slots).1[j]? = slots[j]?) := by
  refine ⟨fun h => renderSpans_no_error discs slots 0 (by omega), fun h => ?_,
    fun h => renderSpans_stale discs slots 0 j (by omega)⟩
  have hne : slots ≠ [] := by
    intro he
    subst he
    simp only [List.length_nil] at h
    omega
  exact renderSpans_error discs slots 0 hne (by omega)

theorem C5_witness :
    [exDisc].length < staleSlots.length ∧
    (renderSpans [exDisc] 0 staleSlots).2 = true ∧
    (renderSpans [exDisc] 0 staleSlots).1[1]? = staleSlots[1]? :=
  have h := C5_slot_mismatch [exDisc] staleSlots 1
  ⟨by decide, h.2.1 (by decide), h.2.2 (by decide)⟩

/-- C6: each disc finding processed (positionally matched to its display slot)
writes `discs[i].condition` as the slot text, and the style class is
determined solely by `discs[i].severity`: severe → strong red, moderate →
strong amber, low → strong green, anything else → strong blue. -/
theorem C6_per_disc_labels (discs : List DiscFinding) (slots : List SlotView) (i : ℕ)
    (h1 : i < slots.length) (h2 : i < discs.length) :
    (renderSpans discs 0 slots).1[i]?
      = (discs[i]?).map
          (fun d => ({ text := d.condition, style := severityStyle d.severity } : SlotView)) ∧
    severityStyle "severe" = "font-bold text-red-500 text-lg" ∧
    severityStyle "moderate" = "font-bold text-amber-500 text-lg" ∧
    severityStyle "low" = "font-bold text-emerald-500 text-lg" ∧
    (∀ sev, sev ≠ "severe" → sev ≠ "moderate" → sev ≠ "low" →
      severityStyle sev = "font-bold text-blue-500 text-lg") := by
  refine ⟨?_, by decide, by decide, by decide, ?_⟩
  · have h := renderSpans_updated discs slots 0 i h1 (by omega)
    simpa using h
  · intro sev hs hm hl
    simp [severityStyle, hs, hm, hl]

theorem C6_witness :
    (0 : ℕ) < staleSlots.length ∧ (0 : ℕ) < [exDisc].length ∧
    (renderSpans [exDisc] 0 staleSlots).1[0]?
      = ([exDisc][0]?).map
          (fun d => ({ text := d.condition, style := severityStyle d.severity } : SlotView)) :=
  ⟨by decide, by decide,
   (C6_per_disc_labels [exDisc] staleSlots 0 (by decide) (by decide)).1⟩

/-- C8: once a file is selected, so the busy UI state is set (progress section
shown, action buttons hidden), every exit path of `analyzeImage` — normal
completion, TypeError thrown during rendering, non-success HTTP status, or
network rejection — runs the `finally` block, so the call never terminates
with the busy state still set. -/
theorem C8_busy_state_always_cleared (s : PageState) (outcome : Outcome) :
    (analyzeImage s true outcome).progressVisible = false ∧
    (analyzeImage s true outcome).actionButtonsVisible = true := by
  cases outcome with
  | networkError message => exact ⟨rfl, rfl⟩
  | httpError status detail => exact ⟨rfl, rfl⟩
  | success data => exact ⟨rfl, rfl⟩

/-- C9: a response with a non-success HTTP status updates no display field and
appends exactly one blocking alert; the alert text contains the server's
`detail` verbatim when the error body provides a non-empty one, and otherwise
the generic message naming the HTTP status code; in particular HTTP 500 with
detail "model unavailable" alerts text containing "model unavailable". -/
theorem C9_http_error_alert (s : PageState) (status : ℕ) (detail : Option String) :
    (analyzeImage s true (.httpError status detail)).page = s.page ∧
    (analyzeImage s true (.httpError status detail)).resultImageSrc = s.resultImageSrc ∧
    (analyzeImage s true (.httpError status detail)).resultImageVisible = s.resultImageVisible ∧
    (analyzeImage s true (.httpError status detail)).placeholderVisible = s.placeholderVisible ∧
    (analyzeImage s true (.httpError status detail)).confidenceText = s.confidenceText ∧
    (analyzeImage s true (.httpError status detail)).confidenceBarWidth = s.confidenceBarWidth ∧
    (analyzeImage s true (.httpError status detail)).normalCount = s.normalCount ∧
    (analyzeImage s true (.httpError status detail)).bulgingCount = s.bulgingCount ∧
    (analyzeImage s true (.httpError status detail)).herniationCount = s.herniationCount ∧
    (analyzeImage s true (.httpError status detail)).notDetectedCount = s.notDetectedCount ∧
    (analyzeImage s true (.httpError status detail)).conditionText = s.conditionText ∧
    (analyzeImage s true (.httpError status detail)).status = s.status ∧
    (analyzeImage s true (.httpError status detail)).spans = s.spans ∧
    (analyzeImage s true (.httpError status detail)).svgChildren = s.svgChildren ∧
    (analyzeImage s true (.httpError status detail)).alerts
      = s.alerts ++
          ["Detection failed: " ++ jsOrString detail ("Server error " ++ toString status)] ∧
    (∀ d, detail = some d → d ≠ "" →
      ∃ pre post, (analyzeImage s true (.httpError status detail)).alerts
        = s.alerts ++ [pre ++ d ++ post]) := by
  refine ⟨rfl, rfl, rfl, rfl, rfl, rfl, rfl, rfl, rfl, rfl, rfl, rfl, rfl, rfl, rfl, ?_⟩
  intro d hd hne
  refine ⟨"Detection failed: ", "", ?_⟩
  subst hd
  show s.alerts ++ ["Detection failed: " ++ jsOrString (some d) _] = _
  simp [jsOrString, hne]

/-- The page state before the first analysis cycle: home page, no busy
indicators, no spans, an empty SVG chart, no alerts. -/
def initState : PageState :=
  { page := "home"
    progressVisible := false
    actionButtonsVisible := true
    resultImageSrc := ""
    resultImageVisible := false
    placeholderVisible := true
    confidenceText := ""
    confidenceBarWidth := ""
    normalCount := 0
    bulgingCount := 0
    herniationCount := 0
    notDetectedCount := 0
    conditionText := ""
    status := ⟨"", "", "", false, false, false⟩
    spans := []
    svgChildren := []
    alerts := [] }

theorem C9_witness :
    (some "model unavailable" : Option String) = some "model unavailable" ∧
    ("model unavailable" : String) ≠ "" ∧
    ∃ pre post,
      (analyzeImage initState true (.httpError 500 (some "model unavailable"))).alerts
        = initState.alerts ++ [pre ++ "model unavailable" ++ post] := by
  have h := C9_http_error_alert initState 500 (some "model unavailable")
  obtain ⟨-, -, -, -, -, -, -, -, -, -, -, -, -, -, -, hall⟩ := h
  exact ⟨rfl, by decide, hall "model unavailable" rfl (by decide)⟩

theorem analyzeImage_success_svg (s : PageState) (data : AnalysisData)
    (h : s.spans.length ≤ data.report.discs.length) :
    (analyzeImage s true (.success data)).svgChildren
      = s.svgChildren ++ donutSegments data.report.summary ∧
    (analyzeImage s true (.success data)).spans.length = s.spans.length := by
  have herr : (renderSpans data.report.discs 0 s.spans).2 = false :=
    renderSpans_no_error _ _ 0 (by omega)
  constructor
  · simp [analyzeImage, renderSuccess, herr]
  · simp [analyzeImage, renderSuccess, herr, renderSpans_length]

/-- C10: the donut chart's segment list is append-only — the render never
clears the SVG, so each successful cycle appends its segments after the
existing children, and after two successful cycles the chart holds the
segments of both cycles. -/
theorem C10_svg_append_only (s : PageState) (d1 d2 : AnalysisData)
    (h1 : s.spans.length ≤ d1.report.discs.length)
    (h2 : s.spans.length ≤ d2.report.discs.length) :
    (analyzeImage s true (.success d1)).svgChildren
      = s.svgChildren ++ donutSegments d1.report.summary ∧
    (analyzeImage (analyzeImage s true (.success d1)) true (.success d2)).svgChildren
      = s.svgChildren ++ donutSegments d1.report.summary
          ++ donutSegments d2.report.summary := by
  obtain ⟨ha, hlen⟩ := analyzeImage_success_svg s d1 h1
  obtain ⟨hb, -⟩ :=
    analyzeImage_success_svg (analyzeImage s true (.success d1)) d2 (by rw [hlen]; exact h2)
  exact ⟨ha, by rw [hb, ha]⟩

/-- A sample successful response body. -/
def exData : AnalysisData :=
  ⟨"/outputs/img_output.jpg", ⟨[], [("Normal", 1)], "Normal"⟩, none⟩

theorem C10_witness :
    initState.spans.length ≤ exData.report.discs.length ∧
    (analyzeImage (analyzeImage initState true (.success exData)) true
        (.success exData)).svgChildren
      = initState.svgChildren ++ donutSegments exData.report.summary
          ++ donutSegments exData.report.summary :=
  ⟨by decide, (C10_svg_append_only initState exData exData (by decide) (by decide)).2⟩

end SpineScan
